import Mathlib

/-
  Verification of the ChmlFrpLauncher session-lifecycle core against its
  natural-language specification.

  The definitions below are a shallow embedding of the TypeScript source:
  * `LogStore` buffer operations (logStore service: addLog / trimLogs / clearLogs)
  * the notification engine (useTunnelNotifications hook)
  * the tunnel-list status reconciliation (useTunnelList hook)
  * the process-controller boundary (FrpcManager)
  * the auto-start orchestrator (useAutoStartTunnels hook)

  JavaScript promises that may reject or never settle are modelled with
  `Except` / `Option`; JS `Set` objects are modelled as duplicate-free lists
  with insertion order; the single-threaded event loop is modelled by explicit
  sequencing, with interleaving made explicit where a claim is about it.
-/

namespace ChmlFrp

/-! ## JS `String.prototype.includes` -/

/-- Prefix test on character lists (helper for `strIncludes`). -/
def prefixMatches : List Char → List Char → Bool
  | [], _ => true
  | _ :: _, [] => false
  | a :: as, b :: bs => a == b && prefixMatches as bs

/-- Substring containment on character lists (helper for `strIncludes`). -/
def listContains (pat : List Char) : List Char → Bool
  | [] => pat.isEmpty
  | c :: rest => prefixMatches pat (c :: rest) || listContains pat rest

/-- JS `s.includes(pat)`: substring containment. -/
def strIncludes (s pat : String) : Bool :=
  listContains pat.data s.data

/-- JS `s.toLowerCase()` on the ASCII protocol names used by the code. -/
def strToLower (s : String) : String :=
  String.mk (s.data.map Char.toLower)

/-! ## Log lines and the log store (`logStore` service) -/

/-- Record `LogMessage` from `frpcManager.ts`: `{tunnel_id, message, timestamp}`. -/
structure LogMessage where
  tunnel_id : Nat
  message : String
  timestamp : String
deriving DecidableEq

/-- Cap of the log buffer (`LogStore.maxLogs`). -/
def maxLogs : Nat := 5000

/-- Source `LogStore.trimLogs`: if the buffer exceeds `maxLogs`, keep the last
`maxLogs` entries (`this.logs.slice(-this.maxLogs)`). -/
def trimLogs (logs : List LogMessage) : List LogMessage :=
  if logs.length > maxLogs then logs.drop (logs.length - maxLogs) else logs

/-- Source `LogStore.addLog`: push to the tail, then trim. -/
def addLog (logs : List LogMessage) (log : LogMessage) : List LogMessage :=
  trimLogs (logs ++ [log])

/-- Source `LogStore.clearLogs`: empties the buffer. -/
def clearLogs (_ : List LogMessage) : List LogMessage := []

/-! ## Session metadata (`Tunnel` of `services/api`)

The `api.ts` service is not part of the analysed sources; only the shape of
its `Tunnel` record is needed here. -/

/-- Modelled from the spec: `ProvisionedSession` (named `Tunnel` in the code)
has a numeric id, a display name, a protocol type (tcp/udp/http/https) and a
remote port or bound domain (`dorp`, the "access link" of notifications).
Only the fields read by the embedded hooks are modelled. -/
structure Tunnel where
  id : Nat
  name : String
  type : String
  dorp : String
deriving DecidableEq

/-! ## JS `Set<number>` (insertion-ordered, duplicate-free list) -/

/-- JS `Set.prototype.add`. -/
def setAdd (s : List Nat) (x : Nat) : List Nat :=
  if x ∈ s then s else s ++ [x]

/-- JS `Set.prototype.delete`. -/
def setDelete (s : List Nat) (x : Nat) : List Nat :=
  s.filter (fun y => y ≠ x)

/-! ## Notification engine (`useTunnelNotifications` hook)

The hook's mutable refs become a `NotifState`; `toast`, sound playback and
`logStore.addLog` calls become `Effect`s; the `fetchTunnels` promise and the
wall clock become an `EngineEnv` the pass reads. -/

/-- Ref `tunnelCacheRef`: `{updatedAt, data: Map<number, Tunnel>}`. The `Map` is
an association list where a later binding for a key shadows an earlier one. -/
structure TunnelCache where
  updatedAt : Nat
  data : List (Nat × Tunnel)
deriving DecidableEq

/-- JS `Map.prototype.get`: last binding for the key wins. -/
def mapGet (m : List (Nat × Tunnel)) (k : Nat) : Option Tunnel :=
  (m.reverse.find? (fun p => p.1 == k)).map (fun p => p.2)

/-- Build the cache map from a fetched tunnel list
(`tunnels.forEach(t => nextMap.set(t.id, t))`). -/
def buildMap (ts : List Tunnel) : List (Nat × Tunnel) :=
  ts.map (fun t => (t.id, t))

/-- The hook's mutable refs:
`processedLogsCountRef`, `notifiedSuccessRef`, `notifiedErrorRef`,
`successLogAddedRef`, `tunnelCacheRef`. -/
structure NotifState where
  processedLogsCount : Nat
  notifiedSuccess : List Nat
  notifiedError : List Nat
  successLogAdded : List Nat
  tunnelCache : TunnelCache
deriving DecidableEq

/-- Initial ref values of the hook. -/
def NotifState.init : NotifState :=
  { processedLogsCount := 0
    notifiedSuccess := []
    notifiedError := []
    successLogAdded := []
    tunnelCache := { updatedAt := 0, data := [] } }

/-- Observable actions of one engine pass. -/
inductive Effect where
  | playSound (kind : String) (enabled : Bool)
  | toastSuccess
  | toastError
  | appendLog (line : LogMessage)
deriving DecidableEq

/-- Environment read by one engine pass: the active tab (notification
suppression flag), the persisted sound preference, the clock (`Date.now()`
and its formatted string), and the behaviour of the `fetchTunnels` promise
during the pass. -/
structure EngineEnv where
  activeTab : String
  soundEnabled : Bool
  now : Nat
  nowStr : String
  fetchTunnels : Except Unit (List Tunnel)

/-- Source `getTunnelById`: serve from the cache when it is younger than 30000ms and
non-empty; otherwise re-fetch and replace the cache, falling back to the stale
cache if the fetch rejects. Returns the lookup result and the updated cache. -/
def getTunnelById (env : EngineEnv) (cache : TunnelCache) (tunnelId : Nat) :
    Option Tunnel × TunnelCache :=
  if env.now - cache.updatedAt < 30000 ∧ cache.data ≠ [] then
    (mapGet cache.data tunnelId, cache)
  else
    match env.fetchTunnels with
    | .ok tunnels =>
        let nextMap := buildMap tunnels
        (mapGet nextMap tunnelId, { updatedAt := env.now, data := nextMap })
    | .error _ => (mapGet cache.data tunnelId, cache)

/-- The `logs.some(...)` scan: does the snapshot already hold a synthesized
friendly-success line for this session id? -/
def hasLauncherSuccessLog (logs : List LogMessage) (tunnelId : Nat) : Bool :=
  logs.any (fun item =>
    item.tunnel_id == tunnelId &&
    strIncludes item.message "[ChmlFrpLauncher]" &&
    strIncludes item.message "启动成功")

/-- Body of the deferred `void (async () => {...})()` synthesis task: resolve
metadata through the cache and decide which friendly line (if any) to append.
Returns the state with the updated cache and the line to append, if any. -/
def runSynth (env : EngineEnv) (st : NotifState) (tunnelId : Nat) :
    NotifState × Option LogMessage :=
  let r := getTunnelById env st.tunnelCache tunnelId
  let st' := { st with tunnelCache := r.2 }
  match r.1 with
  | none => (st', none)
  | some tunnel =>
      let tunnelType := strToLower tunnel.type
      if tunnelType ≠ "http" ∧ tunnelType ≠ "https" then (st', none)
      else
        let link := tunnel.dorp
        let tunnelName := if tunnel.name = "" then "隧道" ++ toString tunnelId else tunnel.name
        if link ≠ "" then
          (st', some
            { tunnel_id := tunnelId
              message := "[I] [ChmlFrpLauncher] 隧道\"" ++ tunnelName ++
                "\"启动成功，您可以通过\"" ++ link ++ "\"访问。"
              timestamp := env.nowStr })
        else
          (st', some
            { tunnel_id := tunnelId
              message := "[I] [ChmlFrpLauncher] 隧道\"" ++ tunnelName ++ "\"启动成功。"
              timestamp := env.nowStr })

/-- One iteration of the `for (const log of newLogs)` loop. The accumulator
carries the state, the effects emitted so far, and the queue of session ids
whose synthesis task was spawned (the async bodies run after the loop). -/
def processOneLog (env : EngineEnv) (logs : List LogMessage)
    (acc : NotifState × List Effect × List Nat) (log : LogMessage) :
    NotifState × List Effect × List Nat :=
  let st := acc.1
  let effs := acc.2.1
  let pending := acc.2.2
  let tunnelId := log.tunnel_id
  let message := log.message
  let hasLauncher := hasLauncherSuccessLog logs tunnelId
  let st :=
    if strIncludes message "frpc 进程已启动" then
      { st with
        notifiedSuccess := setDelete st.notifiedSuccess tunnelId
        notifiedError := setDelete st.notifiedError tunnelId
        successLogAdded := setDelete st.successLogAdded tunnelId }
    else st
  let trig :=
    strIncludes message "映射启动成功" && !hasLauncher && !st.successLogAdded.contains tunnelId
  let st :=
    if trig then { st with successLogAdded := setAdd st.successLogAdded tunnelId } else st
  let pending := if trig then pending ++ [tunnelId] else pending
  if env.activeTab = "tunnels" then (st, effs, pending)
  else if strIncludes message "映射启动成功" then
    if st.notifiedSuccess.contains tunnelId then (st, effs, pending)
    else
      ({ st with notifiedSuccess := setAdd st.notifiedSuccess tunnelId },
        effs ++ [Effect.playSound "success" env.soundEnabled, Effect.toastSuccess],
        pending)
  else if strIncludes message "启动失败" then
    if st.notifiedError.contains tunnelId then (st, effs, pending)
    else
      ({ st with notifiedError := setAdd st.notifiedError tunnelId },
        effs ++ [Effect.playSound "error" env.soundEnabled, Effect.toastError],
        pending)
  else (st, effs, pending)

/-- The cursor logic at the head of the subscriber callback: an empty
snapshot, or one no longer than what was already processed, yields nothing;
otherwise the cursor jumps to the snapshot length and the new suffix is
returned for processing. -/
def cursorAdvance (cursor : Nat) (logs : List LogMessage) : Nat × List LogMessage :=
  if logs.length = 0 then (cursor, [])
  else if cursor ≥ logs.length then (cursor, [])
  else (logs.length, logs.drop cursor)

/-- The whole subscriber callback on one snapshot: advance the cursor, then
run the loop body over the new lines. -/
def processSnapshot (env : EngineEnv) (st : NotifState) (logs : List LogMessage) :
    NotifState × List Effect × List Nat :=
  let c := cursorAdvance st.processedLogsCount logs
  let st' := { st with processedLogsCount := c.1 }
  c.2.foldl (processOneLog env logs) (st', [], [])

/-- Drain the microtask queue of spawned synthesis tasks (FIFO). A task that
appends a friendly line immediately re-notifies the subscriber, whose newly
spawned tasks join the back of the queue. `fuel` bounds the recursion; every
scenario below is run with enough fuel for the queue to drain. -/
def runQueue (env : EngineEnv) :
    Nat → List Nat → List LogMessage → NotifState → List Effect →
    List LogMessage × NotifState × List Effect
  | _, [], buf, st, effs => (buf, st, effs)
  | 0, _ :: _, buf, st, effs => (buf, st, effs)
  | Nat.succ fuel, tid :: rest, buf, st, effs =>
      let r := runSynth env st tid
      match r.2 with
      | none => runQueue env fuel rest buf r.1 effs
      | some line =>
          let buf1 := addLog buf line
          let p := processSnapshot env r.1 buf1
          runQueue env fuel (rest ++ p.2.2) buf1 p.1
            (effs ++ [Effect.appendLog line] ++ p.2.1)

/-- One external log event: append it to the store, run the subscriber on the
fresh snapshot, then drain the spawned synthesis tasks. -/
def engineAppend (env : EngineEnv) (fuel : Nat) (buf : List LogMessage)
    (st : NotifState) (line : LogMessage) :
    List LogMessage × NotifState × List Effect :=
  let buf1 := addLog buf line
  let p := processSnapshot env st buf1
  runQueue env fuel p.2.2 buf1 p.1 p.2.1

/-- Feed a sequence of external log events through the engine, accumulating
all emitted effects. -/
def runEvents (env : EngineEnv) (fuel : Nat) (buf : List LogMessage)
    (st : NotifState) (events : List LogMessage) :
    List LogMessage × NotifState × List Effect :=
  events.foldl
    (fun acc e =>
      let r := engineAppend env fuel acc.1 acc.2.1 e
      (r.1, r.2.1, acc.2.2 ++ r.2.2))
    (buf, st, [])

/-- Success-toast effects. -/
def isSuccessToast : Effect → Bool
  | Effect.toastSuccess => true
  | _ => false

/-- Synthesized-line append effects. -/
def isFriendlyAppend : Effect → Bool
  | Effect.appendLog _ => true
  | _ => false

/-! ## Cursor-only driver (for the processed-cursor claims)

Same subscriber cursor (`cursorAdvance`) and store (`addLog`) as above, but
tracking only which lines reach the per-line handler. -/

/-- Append one line to the store and let the subscriber advance its cursor;
the third component accumulates every line handed to the handler. -/
def appendAndNotify (acc : Nat × List LogMessage × List LogMessage)
    (line : LogMessage) : Nat × List LogMessage × List LogMessage :=
  let buf := addLog acc.2.1 line
  let c := cursorAdvance acc.1 buf
  (c.1, buf, acc.2.2 ++ c.2)

/-! ## Process-controller boundary (`FrpcManager`) -/

/-- Outcome of a Tauri `invoke` promise: it fulfils, rejects, or never
settles. -/
inductive IpcResult (α : Type) where
  | ok (value : α)
  | error
  | pending
deriving DecidableEq

/-- Source `FrpcManager.isTunnelRunning`: await `invoke("is_frpc_running")`; a
rejection is caught and collapses to `false`. `none` means the await itself
never completes. -/
def isTunnelRunning : IpcResult Bool → Option Bool
  | .ok b => some b
  | .error => some false
  | .pending => none

/-- Source `FrpcManager.getRunningTunnels`: rejection collapses to `[]`. -/
def getRunningTunnels : IpcResult (List Nat) → Option (List Nat)
  | .ok l => some l
  | .error => some []
  | .pending => none

/-- Source `FrpcManager.resolveDomainToIp`: rejection collapses to `null`. -/
def resolveDomainToIp : IpcResult (Option String) → Option (Option String)
  | .ok v => some v
  | .error => some none
  | .pending => none

/-! ## Unified catalog and status reconciliation (`useTunnelList` hook) -/

/-- Modelled from the spec: `CustomSession` (named `CustomTunnel` in the
code, defined in the `customTunnelService` outside the analysed sources) has
its own independent numeric id and arbitrary proxy configuration. -/
structure CustomTunnel where
  id : Nat
  config : String
deriving DecidableEq

/-- Union `UnifiedTunnel` from `TunnelList/types.ts`: tagged union of the two
session kinds. -/
inductive UnifiedTunnel where
  | api (data : Tunnel)
  | custom (data : CustomTunnel)
deriving DecidableEq

/-- The composite running-set key the hook builds:
`` `api_${id}` `` or `` `custom_${id}` ``. -/
def tunnelKey : UnifiedTunnel → String
  | .api t => "api_" ++ toString t.id
  | .custom c => "custom_" ++ toString c.id

/-- Source `loadTunnels`: unify the two fetches, where each source's rejection is
caught into an empty list (`.catch(() => [])`). -/
def loadCatalog (apiRes : Except Unit (List Tunnel))
    (customRes : Except Unit (List CustomTunnel)) : List UnifiedTunnel :=
  let apiTunnels := match apiRes with | .ok l => l | .error _ => []
  let customTunnels := match customRes with | .ok l => l | .error _ => []
  apiTunnels.map UnifiedTunnel.api ++ customTunnels.map UnifiedTunnel.custom

/-- Source `withTimeout(promise, 3000)`: a status promise that settles in time gives
its value; one that rejects or outlives the timer resolves to `false`. The
`Option Bool` argument is the observable behaviour of the underlying status
promise within the timeout window (`none` = does not settle in time). -/
def withTimeout (r : Option Bool) : Bool :=
  r.getD false

/-- The status-check phase of `loadTunnels`: concurrent fan-out where every
per-tunnel query is raced against a 3000ms timeout; always completes and
collects the keys whose query came back `true`. -/
def loadRunningStatus (status : UnifiedTunnel → Option Bool)
    (tunnels : List UnifiedTunnel) : List String :=
  tunnels.filterMap (fun t => if withTimeout (status t) then some (tunnelKey t) else none)

/-- Source `checkRunningStatus`, the body of the 5000ms periodic driver: a
sequential `for … await` loop with no timeout. `status t = none` models a
query whose await never completes, in which case the loop — and hence the
whole pass — never completes (`none`); otherwise the fresh running set is
produced. -/
def checkRunningStatus (status : UnifiedTunnel → Option Bool) :
    List UnifiedTunnel → Option (List String)
  | [] => some []
  | t :: rest =>
      match status t with
      | none => none
      | some b =>
          match checkRunningStatus status rest with
          | none => none
          | some s => some (if b then tunnelKey t :: s else s)

/-- Modelled from the spec: the periodic reconciliation pass of
`StatusReconciler` §4.4 — issue `isRunning` for every session concurrently,
each call raced against a 3000ms timeout that resolves to `false` if
exceeded, so the pass always completes with the fresh running set. -/
def specPeriodicPass (status : UnifiedTunnel → Option Bool)
    (tunnels : List UnifiedTunnel) : Option (List String) :=
  some (loadRunningStatus status tunnels)

/-! ## Composite-key dedup as the spec describes it (for the collision claim) -/

/-- Modelled from the spec: notification success-dedup keyed by the composite
`"{kind}_{id}"` key (§3 invariant), counting the success toasts a tagged log
stream would produce if the dedup set held composite keys. Each event is a
log line tagged with the kind of the session that emitted it — information
the real `LogMessage` does not carry. -/
def specCompositeToastCount (events : List (UnifiedTunnel × LogMessage)) : Nat :=
  (events.foldl
    (fun (acc : List String × Nat) ev =>
      if strIncludes ev.2.message "映射启动成功" then
        let key := tunnelKey ev.1
        if key ∈ acc.1 then acc else (key :: acc.1, acc.2 + 1)
      else acc)
    ([], 0)).2

/-! ## Auto-start orchestrator (`useAutoStartTunnels` hook)

One invocation of the effect body is a straight-line program: a synchronous
guard read of `hasAutoStartedRef`, then (inside the async `autoStart`)
toggle-on actions, then the write `hasAutoStartedRef.current = true`, which
the code performs only at the end of the run (also on its early-exit and
catch paths). Awaits between the guard read and the flag write are genuine
suspension points of the event loop, so a second invocation may interleave;
`Interleaving` makes the possible schedules explicit. -/

/-- Environment one run reads: the persisted auto-start list (a rejecting
read goes to the `catch` path), whether a user token is stored, the catalog
ref and the running-set ref at the time the run reads them. -/
structure AutoStartEnv where
  autoStartList : Except Unit (List (String × Nat))
  hasToken : Bool
  tunnels : List UnifiedTunnel
  runningTunnels : List String

/-- The ordered toggle-on actions one run issues (composite keys, catalog
order): empty on a rejected read, an empty list, or a missing token with a
provisioned entry; otherwise the catalog entries whose key is in the
auto-start set and not already running. -/
def runToggles (env : AutoStartEnv) : List String :=
  match env.autoStartList with
  | .error _ => []
  | .ok list =>
      if list = [] then []
      else if list.any (fun p => p.1 = "api") ∧ env.hasToken = false then []
      else
        let autoStartSet := list.map (fun p => p.1 ++ "_" ++ toString p.2)
        env.tunnels.filterMap (fun t =>
          let key := tunnelKey t
          if key ∈ autoStartSet ∧ key ∉ env.runningTunnels then some key else none)

/-- Atomic event-loop steps of one orchestrator run `r`. -/
inductive AutoStartAction where
  | checkFlag (run : Nat)
  | toggleOn (run : Nat) (key : String)
  | setFlag (run : Nat)
deriving DecidableEq

/-- The straight-line program of run `r`: guard read, toggles, flag write. -/
def runProgram (r : Nat) (env : AutoStartEnv) : List AutoStartAction :=
  AutoStartAction.checkFlag r ::
    ((runToggles env).map (AutoStartAction.toggleOn r) ++ [AutoStartAction.setFlag r])

/-- Shared state of the orchestrator: the one-shot flag, plus the set of runs
whose guard read saw the flag already set (those runs do nothing further). -/
structure ExecState where
  flag : Bool
  aborted : List Nat
deriving DecidableEq

/-- Execute one scheduled step; the second component collects the issued
toggle-on actions as (run, key) pairs. -/
def execAction (acc : ExecState × List (Nat × String)) (a : AutoStartAction) :
    ExecState × List (Nat × String) :=
  match a with
  | .checkFlag r =>
      if acc.1.flag then ({ acc.1 with aborted := r :: acc.1.aborted }, acc.2)
      else acc
  | .toggleOn r k =>
      if r ∈ acc.1.aborted then acc else (acc.1, acc.2 ++ [(r, k)])
  | .setFlag r =>
      if r ∈ acc.1.aborted then acc else ({ acc.1 with flag := true }, acc.2)

/-- Execute a whole schedule from the start-of-lifetime state. -/
def execSchedule (sched : List AutoStartAction) : ExecState × List (Nat × String) :=
  sched.foldl execAction ({ flag := false, aborted := [] }, [])

/-- Relation `Interleaving xs ys zs`: `zs` is an order-preserving merge of `xs` and
`ys` — the schedules the single-threaded event loop can produce from two
concurrently invoked runs. -/
inductive Interleaving : List AutoStartAction → List AutoStartAction → List AutoStartAction → Prop where
  | nil : Interleaving [] [] []
  | left {x xs ys zs} : Interleaving xs ys zs → Interleaving (x :: xs) ys (x :: zs)
  | right {y xs ys zs} : Interleaving xs ys zs → Interleaving xs (y :: ys) (y :: zs)

/-! ## Scenario fixtures -/

/-- An http session with an access link, carrying an arbitrary id. -/
def tunnelWeb (x : Nat) : Tunnel :=
  { id := x, name := "web", type := "http", dorp := "a.example.com" }

/-- Engine environment delivering `tunnelWeb x` on fetch. -/
def notifEnv (tab : String) (x : Nat) : EngineEnv :=
  { activeTab := tab, soundEnabled := true, now := 0, nowStr := "",
    fetchTunnels := .ok [tunnelWeb x] }

/-- A raw process log line for session `x`. -/
def logLine (x : Nat) (msg : String) : LogMessage :=
  { tunnel_id := x, message := msg, timestamp := "" }

/-- First epoch of the dedup scenario: process launched, then two
mapping-started-successfully lines. -/
def c2Phase1 (tab : String) (x : Nat) :
    List LogMessage × NotifState × List Effect :=
  runEvents (notifEnv tab x) 5 [] NotifState.init
    [logLine x "frpc 进程已启动", logLine x "映射启动成功", logLine x "映射启动成功"]

/-- Second epoch: a fresh process-launched marker, then another success
marker, continuing from the first phase's buffer and state. -/
def c2Phase2 (tab : String) (x : Nat) :
    List LogMessage × NotifState × List Effect :=
  runEvents (notifEnv tab x) 5 (c2Phase1 tab x).1 (c2Phase1 tab x).2.1
    [logLine x "frpc 进程已启动", logLine x "映射启动成功"]

/-- Engine environment delivering a tcp session (no access link semantics). -/
def notifEnvTcp : EngineEnv :=
  { activeTab := "home", soundEnabled := true, now := 0, nowStr := "",
    fetchTunnels := .ok [{ id := 7, name := "game", type := "tcp", dorp := "25565" }] }

/-- Launch-then-success stream for the tcp session. -/
def c4Run : List LogMessage × NotifState × List Effect :=
  runEvents notifEnvTcp 5 [] NotifState.init
    [logLine 7 "frpc 进程已启动", logLine 7 "映射启动成功"]

/-- The first dedup epoch of C2's scenario (process launched, then two
mapping-started-successfully lines) run against the tcp session instead of an
http one. -/
def c2TcpPhase1 : List LogMessage × NotifState × List Effect :=
  runEvents notifEnvTcp 5 [] NotifState.init
    [logLine 7 "frpc 进程已启动", logLine 7 "映射启动成功", logLine 7 "映射启动成功"]

/-- Engine environment whose metadata fetch rejects. -/
def notifEnvNoFetch : EngineEnv :=
  { activeTab := "home", soundEnabled := true, now := 0, nowStr := "",
    fetchTunnels := .error () }

/-- Success lines for numeric id 7 from a provisioned and then a custom
session's process: the `LogMessage` stream the engine actually sees. -/
def c3Run : List LogMessage × NotifState × List Effect :=
  runEvents notifEnvNoFetch 5 [] NotifState.init
    [logLine 7 "映射启动成功", logLine 7 "映射启动成功"]

/-- The same two success lines tagged with the distinct sessions that emitted
them, for the spec's composite-key dedup. -/
def c3TaggedEvents : List (UnifiedTunnel × LogMessage) :=
  [(UnifiedTunnel.api { id := 7, name := "web", type := "http", dorp := "d" },
      logLine 7 "映射启动成功"),
    (UnifiedTunnel.custom { id := 7, config := "c" },
      logLine 7 "映射启动成功")]

/-- One-session catalog whose status query never settles. -/
def hangingCatalog : List UnifiedTunnel :=
  [UnifiedTunnel.api (tunnelWeb 1)]

/-- A status oracle under which every query hangs. -/
def hangingStatus : UnifiedTunnel → Option Bool := fun _ => none

/-- Auto-start environment: one provisioned session flagged for auto-start,
token present, nothing running. -/
def autoEnv : AutoStartEnv :=
  { autoStartList := .ok [("api", 1)]
    hasToken := true
    tunnels := [UnifiedTunnel.api (tunnelWeb 1)]
    runningTunnels := [] }

/-- The interleaved schedule in which run 2's guard read happens while run 1
is suspended between its guard read and its flag write. -/
def racySchedule : List AutoStartAction :=
  [AutoStartAction.checkFlag 1, AutoStartAction.checkFlag 2,
    AutoStartAction.toggleOn 1 "api_1", AutoStartAction.setFlag 1,
    AutoStartAction.toggleOn 2 "api_1", AutoStartAction.setFlag 2]

/-! # Theorems -/

/-! ## Evaluation of the substring rules on the scenario lines -/

@[simp] lemma incl_launch_launch :
    strIncludes "frpc 进程已启动" "frpc 进程已启动" = true := by decide

@[simp] lemma incl_launch_success :
    strIncludes "frpc 进程已启动" "映射启动成功" = false := by decide

@[simp] lemma incl_launch_fail :
    strIncludes "frpc 进程已启动" "启动失败" = false := by decide

@[simp] lemma incl_launch_tag :
    strIncludes "frpc 进程已启动" "[ChmlFrpLauncher]" = false := by decide

@[simp] lemma incl_launch_ok :
    strIncludes "frpc 进程已启动" "启动成功" = false := by decide

@[simp] lemma incl_success_launch :
    strIncludes "映射启动成功" "frpc 进程已启动" = false := by decide

@[simp] lemma incl_success_success :
    strIncludes "映射启动成功" "映射启动成功" = true := by decide

@[simp] lemma incl_success_fail :
    strIncludes "映射启动成功" "启动失败" = false := by decide

@[simp] lemma incl_success_tag :
    strIncludes "映射启动成功" "[ChmlFrpLauncher]" = false := by decide

@[simp] lemma incl_success_ok :
    strIncludes "映射启动成功" "启动成功" = true := by decide

@[simp] lemma incl_friendly_launch :
    strIncludes "[I] [ChmlFrpLauncher] 隧道\"web\"启动成功，您可以通过\"a.example.com\"访问。"
      "frpc 进程已启动" = false := by decide

@[simp] lemma incl_friendly_success :
    strIncludes "[I] [ChmlFrpLauncher] 隧道\"web\"启动成功，您可以通过\"a.example.com\"访问。"
      "映射启动成功" = false := by decide

@[simp] lemma incl_friendly_fail :
    strIncludes "[I] [ChmlFrpLauncher] 隧道\"web\"启动成功，您可以通过\"a.example.com\"访问。"
      "启动失败" = false := by decide

@[simp] lemma incl_friendly_tag :
    strIncludes "[I] [ChmlFrpLauncher] 隧道\"web\"启动成功，您可以通过\"a.example.com\"访问。"
      "[ChmlFrpLauncher]" = true := by decide

@[simp] lemma incl_friendly_ok :
    strIncludes "[I] [ChmlFrpLauncher] 隧道\"web\"启动成功，您可以通过\"a.example.com\"访问。"
      "启动成功" = true := by decide

/-! ## Claim C2 -/

/-- Claim C2, counterexample: the claim's own log stream (a process-launched
line followed by two mapping-started-successfully lines, notifications not
suppressed) run for a session whose metadata resolves to a tcp session is
fully processed — exactly one success toast fires, the second success line is
absorbed by dedup — yet zero friendly-success lines are synthesized, refuting
"for any session X … exactly one synthesized friendly-success log line". -/
theorem notification_friendly_tcp_counterexample :
    c2TcpPhase1.2.2.countP isFriendlyAppend = 0 ∧
    c2TcpPhase1.2.2.countP isSuccessToast = 1 := by
  decide

/-- Claim C2 as amended: for any session id `x`, with notifications not
suppressed and `x`'s metadata resolving to an http session with an access
link, a process-launched line followed by two mapping-started-successfully
lines produces exactly one success toast and exactly one synthesized friendly
success line (the second success line is absorbed by dedup); a subsequent
process-launched marker for the same session followed by another success
marker produces exactly one new success toast (the dedup epoch is reset).
For a session of any other protocol the same stream produces the same toasts
but no friendly line (the counterexample above). -/
theorem notification_dedup_epoch (x : Nat) (tab : String) (h : tab ≠ "tunnels") :
    (c2Phase1 tab x).2.2.countP isSuccessToast = 1 ∧
    (c2Phase1 tab x).2.2.countP isFriendlyAppend = 1 ∧
    (c2Phase2 tab x).2.2.countP isSuccessToast = 1 := by
  refine ⟨?_, ?_, ?_⟩ <;>
    simp [c2Phase1, c2Phase2, runEvents, engineAppend, processSnapshot, processOneLog,
      cursorAdvance, addLog, trimLogs, maxLogs, runQueue, runSynth, getTunnelById,
      mapGet, buildMap, hasLauncherSuccessLog, setAdd, setDelete, strToLower,
      notifEnv, tunnelWeb, logLine, NotifState.init, h, List.countP_cons,
      isSuccessToast, isFriendlyAppend, List.find?]

/-- Witness for C2 at session id 7 with the home tab active. -/
theorem notification_dedup_epoch_witness :
    ("home" : String) ≠ "tunnels" ∧
      ((c2Phase1 "home" 7).2.2.countP isSuccessToast = 1 ∧
        (c2Phase1 "home" 7).2.2.countP isFriendlyAppend = 1 ∧
        (c2Phase2 "home" 7).2.2.countP isSuccessToast = 1) :=
  ⟨by decide, notification_dedup_epoch 7 "home" (by decide)⟩

/-! ## Claim C4 -/

/-- Claim C4, counterexample: a tcp session's mapping-started-successfully
marker is fully processed (the success toast fires), yet no friendly line is
ever synthesized — refuting "a LogLine is always synthesized and appended
… a generic success line otherwise (for every other protocol)". -/
theorem friendly_line_tcp_counterexample :
    c4Run.2.2.countP isFriendlyAppend = 0 ∧ c4Run.2.2.countP isSuccessToast = 1 := by
  decide

/-- Claim C4 as amended: the synthesis task resolves metadata via the session
cache (fetching if stale, i.e. through `getTunnelById`) and leaves the
synthesized-this-epoch set untouched; it appends a line only when the session
resolves and its lowercased protocol is http or https — announcing the access
link when the bound domain is non-empty and a generic success otherwise — and
appends nothing for an unresolved session or for any other protocol. -/
theorem friendly_line_synthesis (env : EngineEnv) (st : NotifState) (tid : Nat) :
    (runSynth env st tid).1.successLogAdded = st.successLogAdded ∧
    ((getTunnelById env st.tunnelCache tid).1 = none → (runSynth env st tid).2 = none) ∧
    (∀ t, (getTunnelById env st.tunnelCache tid).1 = some t →
      (strToLower t.type ≠ "http" ∧ strToLower t.type ≠ "https" →
        (runSynth env st tid).2 = none) ∧
      ((strToLower t.type = "http" ∨ strToLower t.type = "https") →
        (t.dorp ≠ "" →
          (runSynth env st tid).2 = some
            { tunnel_id := tid
              message := "[I] [ChmlFrpLauncher] 隧道\"" ++
                (if t.name = "" then "隧道" ++ toString tid else t.name) ++
                "\"启动成功，您可以通过\"" ++ t.dorp ++ "\"访问。"
              timestamp := env.nowStr }) ∧
        (t.dorp = "" →
          (runSynth env st tid).2 = some
            { tunnel_id := tid
              message := "[I] [ChmlFrpLauncher] 隧道\"" ++
                (if t.name = "" then "隧道" ++ toString tid else t.name) ++ "\"启动成功。"
              timestamp := env.nowStr }))) := by
  unfold runSynth
  cases hx : (getTunnelById env st.tunnelCache tid).1 with
  | none => simp [hx]
  | some t =>
      simp only [hx]
      refine ⟨?_, by simp [hx], ?_⟩
      · by_cases h1 : strToLower t.type ≠ "http" ∧ strToLower t.type ≠ "https" <;>
          by_cases h2 : t.dorp = "" <;> simp [h1, h2]
      · intro t' ht'
        cases ht'
        constructor
        · intro h1
          simp [h1]
        · intro h1
          have h1' : ¬(strToLower t.type ≠ "http" ∧ strToLower t.type ≠ "https") := by
            rcases h1 with h | h <;> simp [h]
          by_cases h2 : t.dorp = "" <;> simp [h1', h2]

/-- Witness for C4's amended theorem: the http session with an access link
yields the link-announcing line. -/
theorem friendly_line_synthesis_witness :
    (runSynth (notifEnv "home" 7) NotifState.init 7).2 = some
      { tunnel_id := 7
        message := "[I] [ChmlFrpLauncher] 隧道\"web\"启动成功，您可以通过\"a.example.com\"访问。"
        timestamp := "" } := by
  have h := (((friendly_line_synthesis (notifEnv "home" 7) NotifState.init 7).2.2
    (tunnelWeb 7) (by decide)).2 (Or.inl (by decide))).1 (by decide)
  exact h.trans (by decide)

/-! ## Claim C3 -/

/-- Claim C3, counterexample: the same numeric id 7 used by a provisioned and
then a custom session collides in the notification dedup sets — the second
success line is absorbed, producing one toast, whereas dedup keyed by the
composite `"{kind}_{id}"` key (as the claim states) would produce two. -/
theorem dedup_collision_counterexample :
    c3Run.2.2.countP isSuccessToast = 1 ∧
      specCompositeToastCount c3TaggedEvents = 2 := by
  decide

/-- Claim C3 as amended: the running set is keyed by the composite
`"{kind}_{id}"` key, and those keys never collide across kinds; the
notification dedup sets, however, are keyed by the bare numeric session id
carried on each log line, so a provisioned and a custom session sharing a
numeric id share dedup entries (one toast for the two kinds). -/
theorem composite_key_separation :
    (∀ (t : Tunnel) (c : CustomTunnel),
      tunnelKey (UnifiedTunnel.api t) ≠ tunnelKey (UnifiedTunnel.custom c)) ∧
    c3Run.2.2.countP isSuccessToast = 1 := by
  constructor
  · intro t c h
    simp only [tunnelKey] at h
    have hd := congrArg String.data h
    rw [String.data_append, String.data_append] at hd
    have ha : ("api_" : String).data = ['a', 'p', 'i', '_'] := rfl
    have hc : ("custom_" : String).data = ['c', 'u', 's', 't', 'o', 'm', '_'] := rfl
    rw [ha, hc] at hd
    simp at hd
  · decide

/-- Witness for C3's amended theorem at numeric id 7. -/
theorem composite_key_separation_witness :
    tunnelKey (UnifiedTunnel.api { id := 7, name := "web", type := "http", dorp := "d" }) ≠
      tunnelKey (UnifiedTunnel.custom { id := 7, config := "c" }) ∧
    c3Run.2.2.countP isSuccessToast = 1 :=
  ⟨composite_key_separation.1 _ _, composite_key_separation.2⟩

/-! ## Claim C6 -/

/-- One append step preserves the last-`maxLogs`-suffix characterization of
the buffer. -/
lemma addLog_drop (xs : List LogMessage) (x : LogMessage) :
    addLog (xs.drop (xs.length - maxLogs)) x =
      (xs ++ [x]).drop (xs.length + 1 - maxLogs) := by
  by_cases h : xs.length < maxLogs
  · have h0 : xs.length - maxLogs = 0 := by omega
    have h1 : xs.length + 1 - maxLogs = 0 := by omega
    have h2 : ¬(xs ++ [x]).length > maxLogs := by
      simp only [List.length_append, List.length_singleton]
      omega
    simp [h0, h1, addLog, trimLogs, h2]
  · have hle : maxLogs ≤ xs.length := by omega
    have hlen : (xs.drop (xs.length - maxLogs)).length = maxLogs := by
      rw [List.length_drop]
      omega
    have hgt : (xs.drop (xs.length - maxLogs) ++ [x]).length > maxLogs := by
      simp only [List.length_append, List.length_singleton, hlen]
      omega
    have h1 : (xs.drop (xs.length - maxLogs) ++ [x]).length - maxLogs = 1 := by
      simp only [List.length_append, List.length_singleton, hlen]
      omega
    have hone : (1 : Nat) ≤ (xs.drop (xs.length - maxLogs)).length := by
      rw [hlen]; norm_num [maxLogs]
    rw [addLog, trimLogs, if_pos hgt, h1, List.drop_append_of_le_length hone,
      List.drop_drop]
    have h2 : xs.length - maxLogs + 1 = xs.length + 1 - maxLogs := by omega
    have h3 : xs.length + 1 - maxLogs ≤ xs.length := by omega
    rw [h2, List.drop_append_of_le_length h3]

/-- Claim C6: for every sequence of appends into an initially empty buffer,
the buffer never exceeds 5000 entries, and its contents are exactly the
newest 5000 appended lines in original order (oldest evicted first). -/
theorem logBuffer_capacity_fifo (logs : List LogMessage) :
    (logs.foldl addLog []).length ≤ maxLogs ∧
    logs.foldl addLog [] = logs.drop (logs.length - maxLogs) := by
  have key : logs.foldl addLog [] = logs.drop (logs.length - maxLogs) := by
    induction logs using List.reverseRecOn with
    | nil => simp
    | append_singleton xs x ih =>
        rw [List.foldl_append, List.foldl_cons, List.foldl_nil, ih, addLog_drop]
        simp
  refine ⟨?_, key⟩
  rw [key, List.length_drop]
  omega

/-! ## Claim C9 -/

/-- An append into a buffer already at capacity keeps it at capacity. -/
lemma addLog_length_full (buf : List LogMessage) (x : LogMessage)
    (h : buf.length = maxLogs) : (addLog buf x).length = maxLogs := by
  have hgt : (buf ++ [x]).length > maxLogs := by
    simp [h]
  rw [addLog, trimLogs, if_pos hgt, List.length_drop]
  simp [h]

/-- With the buffer at capacity and the cursor at capacity, an external
append leaves the engine's state untouched and emits nothing. -/
lemma engineAppend_full (env : EngineEnv) (fuel : Nat) (buf : List LogMessage)
    (st : NotifState) (line : LogMessage) (h : buf.length = maxLogs)
    (hc : st.processedLogsCount = maxLogs) :
    engineAppend env fuel buf st line = (addLog buf line, st, []) := by
  have hlen : (addLog buf line).length = maxLogs := addLog_length_full buf line h
  have hne : ¬(addLog buf line).length = 0 := by
    rw [hlen]; norm_num [maxLogs]
  have hge : st.processedLogsCount ≥ (addLog buf line).length := by
    rw [hlen, hc]
  rw [engineAppend, processSnapshot, cursorAdvance, if_neg hne, if_pos hge]
  simp [runQueue]

/-- The full-capacity silence extends over any event sequence. -/
lemma runEvents_full_silent (env : EngineEnv) (fuel : Nat)
    (events : List LogMessage) (buf : List LogMessage) (st : NotifState)
    (h : buf.length = maxLogs) (hc : st.processedLogsCount = maxLogs) :
    runEvents env fuel buf st events = (events.foldl addLog buf, st, []) := by
  induction events generalizing buf with
  | nil => rfl
  | cons e es ih =>
      have step : engineAppend env fuel buf st e = (addLog buf e, st, []) :=
        engineAppend_full env fuel buf st e h hc
      have : runEvents env fuel buf st (e :: es) =
          runEvents env fuel (addLog buf e) st es := by
        simp [runEvents, step]
      rw [this, ih (addLog buf e) (addLog_length_full buf e h)]
      simp

/-- The cursor does not move on a snapshot no longer than what was already
processed. -/
lemma cursorAdvance_skip (cursor : Nat) (logs : List LogMessage)
    (h : cursor ≥ logs.length) : cursorAdvance cursor logs = (cursor, []) := by
  rw [cursorAdvance]
  by_cases h0 : logs.length = 0
  · rw [if_pos h0]
  · rw [if_neg h0, if_pos h]

/-- The cursor jumps to the snapshot length on a strictly longer snapshot. -/
lemma cursorAdvance_go (cursor : Nat) (logs : List LogMessage)
    (h0 : logs.length ≠ 0) (h : cursor < logs.length) :
    cursorAdvance cursor logs = (logs.length, logs.drop cursor) := by
  rw [cursorAdvance, if_neg h0, if_neg (by omega)]

/-- The cursor-only run starting from an empty (just-cleared) buffer:
final cursor, buffer and the sequence of handled lines. -/
lemma appendAndNotify_from_clear (c : Nat) (events : List LogMessage)
    (h : events.length ≤ maxLogs) :
    events.foldl appendAndNotify (c, [], []) =
      (max c events.length, events, events.drop c) := by
  induction events using List.reverseRecOn with
  | nil => simp
  | append_singleton xs x ih =>
      have hxs : xs.length ≤ maxLogs := by
        simp only [List.length_append, List.length_singleton] at h
        omega
      have hno : ¬(xs ++ [x]).length > maxLogs := by
        simpa using h
      have hbuf : addLog xs x = xs ++ [x] := by
        rw [addLog, trimLogs, if_neg hno]
      rw [List.foldl_append, List.foldl_cons, List.foldl_nil, ih hxs]
      simp only [appendAndNotify, hbuf]
      by_cases hcx : c ≤ xs.length
      · have hmax : max c xs.length = xs.length := Nat.max_eq_right hcx
        rw [hmax, cursorAdvance_go xs.length (xs ++ [x]) (by simp)
          (by simp only [List.length_append, List.length_singleton]; omega)]
        have h1 : max c (xs ++ [x]).length = (xs ++ [x]).length := by
          simp only [List.length_append, List.length_singleton]
          omega
        have h2 : (xs ++ [x]).drop xs.length = [x] := by
          rw [List.drop_append_of_le_length (Nat.le_refl _)]
          simp
        have h3 : xs.drop c ++ [x] = (xs ++ [x]).drop c :=
          (List.drop_append_of_le_length hcx).symm
        simp [h1, h2, h3]
        omega
      · have hmax : max c xs.length = c := Nat.max_eq_left (by omega)
        have hc1 : c ≥ (xs ++ [x]).length := by
          simp only [List.length_append, List.length_singleton]
          omega
        rw [hmax, cursorAdvance_skip c (xs ++ [x]) hc1]
        have h1 : max c (xs ++ [x]).length = c := Nat.max_eq_left hc1
        have h2 : xs.drop c = [] := List.drop_eq_nil_of_le (by omega)
        have h3 : (xs ++ [x]).drop c = [] := List.drop_eq_nil_of_le hc1
        simp [h1, h2, h3]
        omega

/-- Claim C9: the processed-log cursor only ever advances; after a clear with
the cursor at `c`, the first `c` lines appended afterwards are never handed
to the handler (the handled lines are exactly `events.drop c`); and with the
buffer and cursor both at the 5000 capacity, every further external append is
skipped entirely, so no effects (toasts or synthesized lines) are ever
produced again. -/
theorem cursor_never_rolls_back :
    (∀ (c : Nat) (logs : List LogMessage), c ≤ (cursorAdvance c logs).1) ∧
    (∀ (c : Nat) (events : List LogMessage), events.length ≤ maxLogs →
      (events.foldl appendAndNotify (c, [], [])).2.2 = events.drop c) ∧
    (∀ (env : EngineEnv) (fuel : Nat) (events : List LogMessage)
        (buf : List LogMessage) (st : NotifState),
      buf.length = maxLogs → st.processedLogsCount = maxLogs →
      (runEvents env fuel buf st events).2.2 = []) := by
  refine ⟨?_, ?_, ?_⟩
  · intro c logs
    rw [cursorAdvance]
    split
    · exact Nat.le_refl c
    · split
      · exact Nat.le_refl c
      · next h1 h2 => exact Nat.le_of_lt (Nat.lt_of_not_ge h2)
  · intro c events h
    rw [appendAndNotify_from_clear c events h]
  · intro env fuel events buf st h hc
    rw [runEvents_full_silent env fuel events buf st h hc]

/-- Witness for C9: a cleared buffer with the cursor at 2 swallows a single
subsequent line, and a full buffer with the cursor at capacity produces no
effects on a further append. -/
theorem cursor_never_rolls_back_witness :
    ([logLine 1 "a"].length ≤ maxLogs ∧
      ([logLine 1 "a"].foldl appendAndNotify (2, [], [])).2.2 = [logLine 1 "a"].drop 2) ∧
    ((List.replicate maxLogs (logLine 0 "")).length = maxLogs ∧
      { NotifState.init with processedLogsCount := maxLogs }.processedLogsCount = maxLogs ∧
      (runEvents notifEnvNoFetch 1 (List.replicate maxLogs (logLine 0 ""))
        { NotifState.init with processedLogsCount := maxLogs }
        [logLine 1 "x"]).2.2 = []) :=
  ⟨⟨by decide, cursor_never_rolls_back.2.1 2 [logLine 1 "a"] (by decide)⟩,
    ⟨by simp, rfl,
      cursor_never_rolls_back.2.2 notifEnvNoFetch 1 [logLine 1 "x"]
        (List.replicate maxLogs (logLine 0 ""))
        { NotifState.init with processedLogsCount := maxLogs }
        (by simp) rfl⟩⟩

/-! ## Claim C7 -/

/-- Claim C7: a failing catalog source degrades to an empty list for that
source only (so one source throwing while the other returns 3 sessions
yields exactly 3 unified entries and no failure), and the unified result
holds all provisioned sessions first in source order followed by all custom
sessions in source order. -/
theorem catalog_fault_isolation :
    (∀ (e : Unit) (c : Except Unit (List CustomTunnel)),
      loadCatalog (.error e) c = loadCatalog (.ok []) c) ∧
    (∀ (a : Except Unit (List Tunnel)) (e : Unit),
      loadCatalog a (.error e) = loadCatalog a (.ok [])) ∧
    (∀ (cs : List CustomTunnel), cs.length = 3 →
      (loadCatalog (.error ()) (.ok cs)).length = 3) ∧
    (∀ (la : List Tunnel) (lc : List CustomTunnel) (i : Nat),
      (loadCatalog (.ok la) (.ok lc))[i]? =
        if i < la.length then (la[i]?).map UnifiedTunnel.api
        else (lc[i - la.length]?).map UnifiedTunnel.custom) := by
  refine ⟨fun e c => rfl, fun a e => by cases a <;> rfl, ?_, ?_⟩
  · intro cs h
    simp [loadCatalog, h]
  · intro la lc i
    by_cases hi : i < la.length
    · rw [if_pos hi, loadCatalog]
      rw [List.getElem?_append_left (by simpa using hi)]
      simp
    · rw [if_neg hi, loadCatalog]
      rw [List.getElem?_append_right (by simp; omega)]
      simp

/-- Witness for C7: a throwing provisioned source and three custom sessions
give a three-entry catalog. -/
theorem catalog_fault_isolation_witness :
    ([⟨1, "a"⟩, ⟨2, "b"⟩, ⟨3, "c"⟩] : List CustomTunnel).length = 3 ∧
      (loadCatalog (.error ()) (.ok [⟨1, "a"⟩, ⟨2, "b"⟩, ⟨3, "c"⟩])).length = 3 :=
  ⟨by decide,
    catalog_fault_isolation.2.2.1 [⟨1, "a"⟩, ⟨2, "b"⟩, ⟨3, "c"⟩] (by decide)⟩

/-! ## Claim C8 -/

/-- Claim C8: the process-controller status queries never propagate failure —
a rejected `is_frpc_running` collapses to `false`, a rejected
`get_running_tunnels` to the empty list, and a rejected `resolve_domain_to_ip`
to `null`, while fulfilled calls pass their values through. -/
theorem ipc_failure_collapse :
    isTunnelRunning IpcResult.error = some false ∧
    getRunningTunnels IpcResult.error = some [] ∧
    resolveDomainToIp IpcResult.error = some none ∧
    (∀ b, isTunnelRunning (IpcResult.ok b) = some b) ∧
    (∀ l, getRunningTunnels (IpcResult.ok l) = some l) ∧
    (∀ v, resolveDomainToIp (IpcResult.ok v) = some v) :=
  ⟨rfl, rfl, rfl, fun _ => rfl, fun _ => rfl, fun _ => rfl⟩

/-! ## Claim C1 -/

/-- Claim C1, counterexample: the 5000ms periodic pass over a one-session
catalog whose status query never resolves does not complete (it is the
sequential, timeout-free `checkRunningStatus` loop), while the spec's
concurrent timeout-raced pass completes reporting the session not running. -/
theorem periodic_pass_hang_counterexample :
    checkRunningStatus hangingStatus hangingCatalog = none ∧
    specPeriodicPass hangingStatus hangingCatalog = some [] := by
  constructor
  · rfl
  · rfl

/-- Claim C1 as amended: only the initial load's status check
(`loadRunningStatus`) fans out with per-call 3000ms timeouts and therefore
always completes, reporting a session whose query does not settle in time as
not running; the periodic 5000ms pass (`checkRunningStatus`) awaits each
session's query sequentially with no timeout, so it completes exactly when
every query settles, and only then replaces the running set wholesale with
the keys whose query answered `true`. -/
theorem status_pass_characterization :
    (∀ (status : UnifiedTunnel → Option Bool) (ts : List UnifiedTunnel),
      checkRunningStatus status ts =
        if ts.all (fun t => (status t).isSome) then
          some (ts.filterMap
            (fun t => if status t = some true then some (tunnelKey t) else none))
        else none) ∧
    (∀ (status : UnifiedTunnel → Option Bool) (ts : List UnifiedTunnel),
      loadRunningStatus status ts =
        ts.filterMap
          (fun t => if status t = some true then some (tunnelKey t) else none)) := by
  constructor
  · intro status ts
    induction ts with
    | nil => simp [checkRunningStatus]
    | cons t rest ih =>
        rw [checkRunningStatus]
        cases hst : status t with
        | none => simp [hst]
        | some b =>
            rw [ih]
            by_cases hall : rest.all (fun t => (status t).isSome)
            · cases b <;> simp [hst, hall]
            · simp [hst, hall]
  · intro status ts
    induction ts with
    | nil => rfl
    | cons t rest ih =>
        rw [loadRunningStatus, List.filterMap_cons, List.filterMap_cons]
        cases hst : status t with
        | none => simpa [withTimeout, hst] using ih
        | some b => cases b <;> simpa [withTimeout, hst] using ih

/-! ## Claim C5 -/

/-- A run not marked aborted emits its toggles in order and leaves the state
unchanged. -/
lemma exec_toggles_live (keys : List String) (r : Nat) (s : ExecState)
    (out : List (Nat × String)) (h : r ∉ s.aborted) :
    (keys.map (AutoStartAction.toggleOn r)).foldl execAction (s, out) =
      (s, out ++ keys.map (fun k => (r, k))) := by
  induction keys generalizing out with
  | nil => simp
  | cons k ks ih =>
      rw [List.map_cons, List.foldl_cons]
      have step : execAction (s, out) (AutoStartAction.toggleOn r k) =
          (s, out ++ [(r, k)]) := by
        simp [execAction, h]
      rw [step, ih (out ++ [(r, k)])]
      simp

/-- An aborted run's toggles and flag write are all skipped. -/
lemma exec_toggles_dead (keys : List String) (r : Nat) (s : ExecState)
    (out : List (Nat × String)) (h : r ∈ s.aborted) :
    (keys.map (AutoStartAction.toggleOn r) ++ [AutoStartAction.setFlag r]).foldl
        execAction (s, out) = (s, out) := by
  induction keys with
  | nil => simp [execAction, h]
  | cons k ks ih =>
      rw [List.map_cons, List.cons_append, List.foldl_cons]
      have step : execAction (s, out) (AutoStartAction.toggleOn r k) = (s, out) := by
        simp [execAction, h]
      rw [step, ih]

/-- Claim C5, counterexample: `racySchedule` is a legal event-loop
interleaving of two invocations (run 2's guard read happens while run 1 is
suspended between its guard read and its end-of-run flag write, exactly the
window the `await`s open), and executing it makes the second run issue a
toggle-on action — refuting "no session toggle-on action is ever issued by a
second run". -/
theorem auto_start_race_counterexample :
    Interleaving (runProgram 1 autoEnv) (runProgram 2 autoEnv) racySchedule ∧
    (execSchedule racySchedule).2 = [(1, "api_1"), (2, "api_1")] := by
  constructor
  · have h1 : runProgram 1 autoEnv =
        [AutoStartAction.checkFlag 1, AutoStartAction.toggleOn 1 "api_1",
          AutoStartAction.setFlag 1] := by decide
    have h2 : runProgram 2 autoEnv =
        [AutoStartAction.checkFlag 2, AutoStartAction.toggleOn 2 "api_1",
          AutoStartAction.setFlag 2] := by decide
    rw [h1, h2, racySchedule]
    exact Interleaving.left (Interleaving.right (Interleaving.left
      (Interleaving.left (Interleaving.right (Interleaving.right
        Interleaving.nil)))))
  · decide

/-- Claim C5 as amended: the one-shot flag is written only at the end of a
run (also on the empty-list, missing-token and error paths), so a second
invocation whose guard read comes after a completed first run issues no
toggles — sequential re-invocation triggers session starts at most once —
while a second invocation interleaved before the first run's flag write can
issue a second batch of toggles (the counterexample schedule). -/
theorem auto_start_sequential_once (e1 e2 : AutoStartEnv) :
    execSchedule (runProgram 1 e1 ++ runProgram 2 e2) =
      ({ flag := true, aborted := [2] },
        (runToggles e1).map (fun k => (1, k))) := by
  rw [execSchedule, List.foldl_append, runProgram, List.foldl_cons]
  have c1 : execAction ({ flag := false, aborted := [] }, [])
      (AutoStartAction.checkFlag 1) = ({ flag := false, aborted := [] }, []) := by
    simp [execAction]
  rw [c1, List.foldl_append,
    exec_toggles_live (runToggles e1) 1 { flag := false, aborted := [] } []
      (by simp)]
  have s1 : List.foldl execAction
      (({ flag := false, aborted := [] } : ExecState),
        [] ++ (runToggles e1).map (fun k => (1, k))) [AutoStartAction.setFlag 1] =
      ({ flag := true, aborted := [] }, (runToggles e1).map (fun k => (1, k))) := by
    simp [execAction]
  rw [s1, runProgram, List.foldl_cons]
  have c2 : execAction (({ flag := true, aborted := [] } : ExecState),
      (runToggles e1).map (fun k => (1, k))) (AutoStartAction.checkFlag 2) =
      ({ flag := true, aborted := [2] }, (runToggles e1).map (fun k => (1, k))) := by
    simp [execAction]
  rw [c2, exec_toggles_dead (runToggles e2) 2 { flag := true, aborted := [2] }
    ((runToggles e1).map (fun k => (1, k))) (by simp)]

/-! ## Claim C10 -/

/-- Claim C10: processing a mapping-started-successfully line (no friendly
line in the buffer, none synthesized this epoch) marks the
synthesized-this-epoch flag and only queues the metadata resolution; the
deferred resolution appends nothing when the session does not resolve or its
protocol is not http/https, yet leaves the flag set; and while the flag is
set (and no new epoch opens), no further synthesis is ever queued for that
session. -/
theorem synth_flag_set_before_resolution (env : EngineEnv)
    (logs : List LogMessage) (st : NotifState) (effs : List Effect)
    (p : List Nat) (log : LogMessage) :
    (strIncludes log.message "映射启动成功" = true →
      strIncludes log.message "frpc 进程已启动" = false →
      hasLauncherSuccessLog logs log.tunnel_id = false →
      st.successLogAdded.contains log.tunnel_id = false →
      (processOneLog env logs (st, effs, p) log).1.successLogAdded =
          st.successLogAdded ++ [log.tunnel_id] ∧
        (processOneLog env logs (st, effs, p) log).2.2 = p ++ [log.tunnel_id]) ∧
    ((∀ t, (getTunnelById env st.tunnelCache log.tunnel_id).1 = some t →
        strToLower t.type ≠ "http" ∧ strToLower t.type ≠ "https") →
      (runSynth env st log.tunnel_id).2 = none ∧
        (runSynth env st log.tunnel_id).1.successLogAdded = st.successLogAdded) ∧
    (strIncludes log.message "frpc 进程已启动" = false →
      st.successLogAdded.contains log.tunnel_id = true →
      (processOneLog env logs (st, effs, p) log).2.2 = p) := by
  refine ⟨?_, ?_, ?_⟩
  · intro h1 h2 h3 h4
    have hmem : log.tunnel_id ∉ st.successLogAdded := by
      simpa using h4
    simp [processOneLog, h1, h2, h3, h4, setAdd, hmem]
    split_ifs <;> simp_all
  · intro hbad
    unfold runSynth
    cases hx : (getTunnelById env st.tunnelCache log.tunnel_id).1 with
    | none => simp [hx]
    | some t =>
        simp only [hx]
        have ht := hbad t hx
        simp [ht]
  · intro h2 h4
    simp [processOneLog, h2, h4]
    split_ifs <;> simp_all

/-- Witness for C10 at the tcp session: the flag is marked, nothing is
appended, and the next success line in the same epoch queues nothing. -/
theorem synth_flag_set_before_resolution_witness :
    ((processOneLog notifEnvTcp [] (NotifState.init, [], [])
        (logLine 7 "映射启动成功")).1.successLogAdded = [] ++ [7] ∧
      (processOneLog notifEnvTcp [] (NotifState.init, [], [])
        (logLine 7 "映射启动成功")).2.2 = [] ++ [7]) ∧
    ((runSynth notifEnvTcp NotifState.init 7).2 = none ∧
      (runSynth notifEnvTcp NotifState.init 7).1.successLogAdded =
        NotifState.init.successLogAdded) ∧
    (processOneLog notifEnvTcp []
        ({ NotifState.init with successLogAdded := [7] }, [], [])
        (logLine 7 "映射启动成功")).2.2 = [] :=
  ⟨(synth_flag_set_before_resolution notifEnvTcp [] NotifState.init [] []
      (logLine 7 "映射启动成功")).1 (by decide) (by decide) (by decide) (by decide),
    (synth_flag_set_before_resolution notifEnvTcp [] NotifState.init [] []
      (logLine 7 "映射启动成功")).2.1
      (by
        intro t ht
        have hres : (getTunnelById notifEnvTcp NotifState.init.tunnelCache
            (logLine 7 "映射启动成功").tunnel_id).1 =
            some { id := 7, name := "game", type := "tcp", dorp := "25565" } := by
          decide
        rw [hres] at ht
        cases ht
        exact ⟨by decide, by decide⟩),
    (synth_flag_set_before_resolution notifEnvTcp []
      { NotifState.init with successLogAdded := [7] } [] []
      (logLine 7 "映射启动成功")).2.2 (by decide) (by decide)⟩

end ChmlFrp
